import Mathlib

/-!
Verification development for the Sandbox particle simulation (src/main.cpp).

The C++ engine is shallowly embedded here.  Coordinates are integers (they can
go negative before a bounds check), a grid is a total function from coordinates
to cells (positions outside the bounds are guarded by inBounds exactly where the
source guards them), and the two buffers of the double-buffered engine are the
two fields of the Sim structure.  Machine-integer fields are modelled as Nat or
Int with explicit wrap-arounds at the points where the C bit-fields truncate.
Float arithmetic inside radiateHeat (the only place floats influence state) is
modelled by exact rational arithmetic, with the C float-to-int conversion
modelled as truncation toward zero.  The C rand() stream is modelled by an
explicit oracle, a list of naturals consumed one value per rand() call.

Pass dimensions W and H are parameters of every grid operation; the constants
WIDTH and HEIGHT of the source are defined below and nothing in the algorithms
depends on their particular values, which lets concrete runs use small grids.
-/

namespace Sandbox

/-! ## Constants (src/main.cpp lines 6-26) -/

def WIDTH : Nat := 200
def HEIGHT : Nat := 150
def TEMP_MAX : Int := 3000
def TEMP_MIN : Int := -273
def CURRENT_TYPE_AMOUNT : Nat := 13

/-! ## CellType tags (enum class CellType, line 22) -/

def EMPTY : Nat := 0
def SAND : Nat := 1
def WATER : Nat := 2
def STONE : Nat := 3
def FIRE : Nat := 4
def OIL : Nat := 5
def WOOD : Nat := 6
def STEAM : Nat := 7
def SMOKE : Nat := 8
def ELECTRICITY : Nat := 9
def GLASS : Nat := 10
def LAVA : Nat := 11
def COLD : Nat := 12

/-! ## Category tags (enum class Category, line 28) -/

def SOLID : Nat := 0
def LIQUID : Nat := 1
def GAS : Nat := 2
def OTHER : Nat := 3

/-- The Cell record (struct Cell, lines 67-89).  The one-byte CellData union
(lines 40-65) is modelled by its raw byte, dataByte; the per-category views of
that byte are the accessor functions below, mirroring the bit layout:
SolidData.canFall is bit 0; LiquidData.density is bits 0-3; GasData.lifetime is
the whole byte; OtherData.parentCell is bit 0 and OtherData.lifetime bits 4-7. -/
structure Cell where
  type : Nat
  flags : Nat
  lastUpdate : Nat
  temperature : Int
  category : Nat
  thermalConductivity : Nat
  dataByte : Nat
deriving DecidableEq, Repr

/-- Raw union view cell.data.solid.canFall (bit 0 of the union byte). -/
def solidCanFall (c : Cell) : Bool := c.dataByte % 2 = 1

/-- Raw union view cell.data.liquid.density (bits 0-3 of the union byte). -/
def liquidDensity (c : Cell) : Nat := c.dataByte % 16

/-- Raw union view cell.data.gas.lifetime (the whole union byte). -/
def gasLifetime (c : Cell) : Nat := c.dataByte % 256

/-- Raw union view cell.data.other.parentCell (bit 0 of the union byte). -/
def otherParent (c : Cell) : Bool := c.dataByte % 2 = 1

/-- Raw union view cell.data.other.lifetime (bits 4-7 of the union byte). -/
def otherLifetime (c : Cell) : Nat := c.dataByte / 16 % 16

/-- Store v into the 4-bit other.lifetime field of a union byte. -/
def setOtherLifetimeByte (b v : Nat) : Nat := b % 16 + v % 16 * 16

/-- Checked accessor getCanFall (line 259): only Solid cells expose the
canFall bit, every other category yields false. -/
def getCanFall (c : Cell) : Bool := if c.category = 0 then solidCanFall c else false

/-- Checked accessor getDensity (line 263).  The C function has return type
int and computes density divided by 4.0f, so the float quotient is truncated
back to an integer; only Liquid cells expose the field, others yield 0. -/
def getDensity (c : Cell) : Nat := if c.category = 1 then liquidDensity c / 4 else 0

/-- Checked accessor isParentCell (line 268). -/
def isParentCell (c : Cell) : Bool := if c.category = 3 then otherParent c else false

/-- Checked accessor getLifetime (line 272): Gas and Other cells expose their
lifetime fields, every other category yields 0. -/
def getLifetime (c : Cell) : Nat :=
  if c.category = 2 then gasLifetime c
  else if c.category = 3 then otherLifetime c
  else 0

/-- getCellType (line 245) returns the raw 4-bit tag.  The source asserts
that the tag is not strictly greater than CURRENT_TYPE_AMOUNT before
returning it; the assertion is a debug-only check and is not part of the
value computed. -/
def getCellType (c : Cell) : Nat := c.type

/-- getCategoryFromType (line 450).  The default branch of the C switch is an
assert(false); it is never reached for the 13 real tags, and is modelled here
as the OTHER category. -/
def getCategoryFromType (t : Nat) : Nat :=
  if t = SAND ∨ t = STONE ∨ t = WOOD ∨ t = GLASS then SOLID
  else if t = WATER ∨ t = OIL ∨ t = LAVA then LIQUID
  else if t = STEAM ∨ t = SMOKE then GAS
  else OTHER

/-! ## Material property table (lines 194-226).  PropertyIndexMap maps every
tag to its own numeric value, so the table is indexed directly by tag. -/

structure CellProperties where
  ctype : Nat
  temperature : Int
  density : Nat
  canFall : Bool
  thermalConductivity : Nat
deriving DecidableEq

def cellProperties (t : Nat) : CellProperties :=
  if t = EMPTY then ⟨EMPTY, 20, 0, false, 0⟩
  else if t = SAND then ⟨SAND, 20, 2, true, 0⟩
  else if t = WATER then ⟨WATER, 20, 1, true, 0⟩
  else if t = STONE then ⟨STONE, 20, 3, false, 0⟩
  else if t = FIRE then ⟨FIRE, 1000, 0, true, 0⟩
  else if t = OIL then ⟨OIL, 20, 1, true, 0⟩
  else if t = WOOD then ⟨WOOD, 20, 1, false, 0⟩
  else if t = STEAM then ⟨STEAM, 100, 0, true, 0⟩
  else if t = SMOKE then ⟨SMOKE, 100, 0, true, 0⟩
  else if t = ELECTRICITY then ⟨ELECTRICITY, 3000, 0, false, 0⟩
  else if t = GLASS then ⟨GLASS, 1700, 3, false, 0⟩
  else if t = LAVA then ⟨LAVA, 1200, 3, false, 0⟩
  else if t = COLD then ⟨COLD, -273, 0, false, 0⟩
  else ⟨EMPTY, 0, 0, false, 0⟩

/-! ## Machine arithmetic helpers -/

/-- Store an int into the 13-bit signed temperature bit-field (keeps the low
13 bits, reinterpreted as a signed value in -4096..4095). -/
def storeTemp (t : Int) : Int := (t + 4096) % 8192 - 4096

/-- std::clamp(t, TEMP_MIN, TEMP_MAX) on integers. -/
def clampTemp (t : Int) : Int := max TEMP_MIN (min t TEMP_MAX)

/-- Conversion of an int8_t argument: wrap a wider integer into -128..127. -/
def wrap8 (d : Int) : Int := (d + 128) % 256 - 128

/-!  Float modelling.  The only floats that influence simulation state are the
diffusion quantities of radiateHeat (exact multiples of 1/100 when the stored
temperatures are integers, which they always are: the temperature bit-field
holds an int) and the spread-chance comparisons of fire and electricity (exact
multiples of 1/50 and 1/8).  The embedding computes with the exact rational
values, represented by integer numerators over a fixed power-of-ten or explicit
scale; the C float-to-int conversion is truncation toward zero, Int.tdiv. -/

/-- The preconditions asserted by createCell (lines 480-483): a valid tag, a
temperature inside the physical range and a density that fits the 4-bit
field.  The density parameter has C type int8_t, hence the wrap. -/
def createCellAsserts (t : Nat) (temperature density : Int) : Prop :=
  t < CURRENT_TYPE_AMOUNT ∧ TEMP_MIN ≤ temperature ∧ temperature ≤ TEMP_MAX ∧
    0 ≤ wrap8 density ∧ wrap8 density ≤ 15

instance (t : Nat) (temperature density : Int) :
    Decidable (createCellAsserts t temperature density) := by
  unfold createCellAsserts; infer_instance

/-- createCell (line 478): builds a zero-initialized cell, sets the common
fields, derives the category from the tag, and initializes exactly the union
member selected by the category.  The debug assertions are the separate
predicate createCellAsserts; in a release build the function always produces
the value below. -/
def createCell (t : Nat) (temperature density : Int) (canFall : Bool) : Cell :=
  { type := t % 16
    flags := 0
    lastUpdate := 0
    temperature := storeTemp temperature
    category := getCategoryFromType t % 8
    thermalConductivity := (cellProperties t).thermalConductivity
    dataByte :=
      if getCategoryFromType t = SOLID then (if canFall then 1 else 0)
      else if getCategoryFromType t = LIQUID then (density % 16).toNat
      else 0 }

/-! ## Grid store -/

/-- A buffer: total function from integer coordinates to cells.  The source
indexes as grid[y][x]; here a grid is applied as g x y. -/
def Grid := Int → Int → Cell

/-- Point update of a buffer. -/
def setCell (g : Grid) (x y : Int) (c : Cell) : Grid :=
  fun p q => if p = x ∧ q = y then c else g p q

/-- The simulation state: the current (authoritative) buffer and the next
(scratch) buffer, i.e. the two arrays behind currentGrid and nextGrid. -/
structure Sim where
  cur : Grid
  nxt : Grid

/-- inBounds (line 241). -/
def inBounds (W H : Nat) (x y : Int) : Bool :=
  decide (0 ≤ x) && decide (x < (W : Int)) && decide (0 ≤ y) && decide (y < (H : Int))

/-- read (line 292): a lookup in the current buffer. -/
def read (s : Sim) (x y : Int) : Cell := s.cur x y

/-- write (line 296): stores into the next buffer only. -/
def write (s : Sim) (x y : Int) (c : Cell) : Sim :=
  { s with nxt := setCell s.nxt x y c }

/-- swapCells (line 280): swaps two cells of the current buffer, copies both
results into the next buffer, and resets lastUpdate to 0 on the two next
buffer copies only. -/
def swapCells (s : Sim) (x1 y1 x2 y2 : Int) : Sim :=
  let a := s.cur x1 y1
  let b := s.cur x2 y2
  let cur2 := setCell (setCell s.cur x1 y1 b) x2 y2 a
  let nxt2 := setCell (setCell s.nxt x1 y1 { cur2 x1 y1 with lastUpdate := 0 })
      x2 y2 { cur2 x2 y2 with lastUpdate := 0 }
  { cur := cur2, nxt := nxt2 }

/-- clearCells (line 301): overwrites the position in both buffers with a
fresh Empty cell whose temperature is then set to the retained value.  The
temperature parameter has C type float and every caller passes an integer
temperature, so it is modelled as an Int going through the bit-field store. -/
def clearCells (s : Sim) (x y : Int) (temp : Int) : Sim :=
  let e := createCell EMPTY 0 0 false
  let e2 := { e with temperature := storeTemp temp }
  { cur := setCell s.cur x y e2, nxt := setCell s.nxt x y e2 }

/-! ## Random oracle.  Each C rand() call consumes one value of the list; an
exhausted oracle yields 0.  A std::shuffle of a two-element range consumes
one value whose parity selects the order. -/

def Rng := List Nat

def drawVal : Rng → Nat
  | [] => 0
  | n :: _ => n

def drawRest : Rng → Rng
  | [] => []
  | _ :: t => t

/-! ## Movement primitives -/

/-- fall (line 311).  The cell is read from the current buffer; a cell whose
raw solid canFall bit is clear is just copied to the next buffer.  Otherwise
one rand() seeds a shuffle of the two diagonal options, and the first of
down / first diagonal / second diagonal whose in-bounds target is Empty is
swapped with.  With no swap the lastUpdate counter of the current-buffer cell
is incremented (the guard against 256 is vacuous for a uint8, which wraps at
255) and the cell is copied to the next buffer. -/
def fall (W H : Nat) (s : Sim) (x y : Int) (r : Rng) : Sim × Rng :=
  let cell := s.cur x y
  if !solidCanFall cell then ({ s with nxt := setCell s.nxt x y cell }, r)
  else
    let n := drawVal r
    let r1 := drawRest r
    let opts : List Int := if n % 2 = 0 then [0, -1, 1] else [0, 1, -1]
    match opts.find? (fun dx =>
        inBounds W H (x + dx) (y + 1) && (getCellType (s.cur (x + dx) (y + 1)) == EMPTY)) with
    | some dx => (swapCells s x y (x + dx) (y + 1), r1)
    | none =>
        let cell2 :=
          if cell.lastUpdate < 256 then { cell with lastUpdate := (cell.lastUpdate + 1) % 256 }
          else cell
        ({ cur := setCell s.cur x y cell2, nxt := setCell s.nxt x y cell2 }, r1)

/-- The inner distance scan of flow (lines 365-380): walk outward up to 5
cells in one direction; out-of-bounds targets are skipped and the scan keeps
going; an in-bounds target qualifies when it is Empty or has a smaller raw
liquid density; a blocked in-bounds target ends a diagonal scan (dy = 1)
immediately, while a horizontal scan continues outward. -/
def flowScanDist (W H : Nat) (s : Sim) (cell : Cell) (x y dy dir : Int) :
    List Int → Option (Int × Int)
  | [] => none
  | dist :: rest =>
    let newX := x + dist * dir
    let newY := y + dy
    if !inBounds W H newX newY then flowScanDist W H s cell x y dy dir rest
    else if getCellType (s.cur newX newY) == EMPTY ∨
        liquidDensity (s.cur newX newY) < liquidDensity cell then some (newX, newY)
    else if dy = 1 then none
    else flowScanDist W H s cell x y dy dir rest

/-- Try the two shuffled directions in order for one dy row of flow. -/
def flowFindDir (W H : Nat) (s : Sim) (cell : Cell) (x y dy : Int) :
    List Int → Option (Int × Int)
  | [] => none
  | dir :: rest =>
    match flowScanDist W H s cell x y dy dir [1, 2, 3, 4, 5] with
    | some p => some p
    | none => flowFindDir W H s cell x y dy rest

/-- flow (line 343).  Straight down first, when the cell below is Empty or
has a smaller raw liquid density.  Otherwise a diagonal row (dy = 1) and then
a horizontal row (dy = 0) are scanned, each after one rand() draw shuffling
the left/right order.  With no move, lastUpdate of the current-buffer cell is
incremented (uint8 wrap) and the cell is copied to the next buffer. -/
def flow (W H : Nat) (s : Sim) (x y : Int) (r : Rng) : Sim × Rng :=
  let cell := s.cur x y
  if inBounds W H x (y + 1) &&
      (decide (liquidDensity (s.cur x (y + 1)) < liquidDensity cell) ||
       (s.cur x (y + 1)).type == EMPTY) then
    (swapCells s x y x (y + 1), r)
  else
    let n1 := drawVal r
    let r1 := drawRest r
    let dirs1 : List Int := if n1 % 2 = 0 then [-1, 1] else [1, -1]
    match flowFindDir W H s cell x y 1 dirs1 with
    | some p => (swapCells s x y p.1 p.2, r1)
    | none =>
      let n2 := drawVal r1
      let r2 := drawRest r1
      let dirs2 : List Int := if n2 % 2 = 0 then [-1, 1] else [1, -1]
      match flowFindDir W H s cell x y 0 dirs2 with
      | some p => (swapCells s x y p.1 p.2, r2)
      | none =>
        let cell2 := { cell with lastUpdate := (cell.lastUpdate + 1) % 256 }
        ({ cur := setCell s.cur x y cell2, nxt := setCell s.nxt x y cell2 }, r2)

/-- rise (line 390).  At the top row (y - 1 out of bounds) the function
returns immediately without writing anything.  Otherwise straight up into an
Empty cell, then the left then right diagonal; with no move, lastUpdate of
the current-buffer cell is incremented (uint8 wrap) and the cell is copied
to the next buffer.  rise consumes no randomness. -/
def rise (W H : Nat) (s : Sim) (x y : Int) : Sim :=
  let cell := s.cur x y
  if !inBounds W H x (y - 1) then s
  else if getCellType (s.cur x (y - 1)) == EMPTY then swapCells s x y x (y - 1)
  else
    match ([-1, 1] : List Int).find? (fun dx =>
        inBounds W H (x + dx) (y - 1) && (getCellType (s.cur (x + dx) (y - 1)) == EMPTY)) with
    | some dx => swapCells s x y (x + dx) (y - 1)
    | none =>
        let cell2 := { cell with lastUpdate := (cell.lastUpdate + 1) % 256 }
        { cur := setCell s.cur x y cell2, nxt := setCell s.nxt x y cell2 }

/-! ## Thermal diffusion (radiateHeat, line 421) -/

/-- The 8 neighbor offsets in the visit order of the double loop of
radiateHeat: dx outer from -1 to 1, dy inner from -1 to 1, skipping (0,0). -/
def neighborOffsets : List (Int × Int) :=
  [(-1, -1), (-1, 0), (-1, 1), (0, -1), (0, 1), (1, -1), (1, 0), (1, 1)]

/-- One neighbor visit of radiateHeat.  The accumulator carries the running
float netDelta scaled by 100 (netDelta is a sum of diff values, each diff
being (selfTemp - neighborTemp) * 0.01f, an exact multiple of 1/100 since all
stored temperatures are integers) together with the next buffer.  The guard
abs diff lt 0.001 is the same inequality scaled by 1000.  The store
nextGrid[ny][nx].temperature += diff truncates the float sum toward zero into
the temperature bit-field; the subsequent std::clamp keeps it in range. -/
def radiateStep (W H : Nat) (cur : Grid) (selfT : Int) (x y : Int)
    (acc : Int × Grid) (d : Int × Int) : Int × Grid :=
  if inBounds W H (x + d.1) (y + d.2) then
    (let dv := selfT - (cur (x + d.1) (y + d.2)).temperature
     if |dv| * 10 < 1 then acc
     else
       (acc.1 - dv,
        setCell acc.2 (x + d.1) (y + d.2)
          { acc.2 (x + d.1) (y + d.2) with
            temperature := clampTemp (storeTemp
              (Int.tdiv ((acc.2 (x + d.1) (y + d.2)).temperature * 100 + dv) 100)) }))
  else acc

/-- radiateHeat (line 421).  All temperatures are read from the current
buffer; the per-neighbor transfers are applied incrementally to the next
buffer; finally the full current-buffer record of the cell itself, with
netDelta added to its temperature (truncated and clamped), is written to the
next buffer at the same position. -/
def radiateHeat (W H : Nat) (s : Sim) (x y : Int) : Sim :=
  let selfT := (s.cur x y).temperature
  let acc := neighborOffsets.foldl (radiateStep W H s.cur selfT x y) (0, s.nxt)
  { cur := s.cur,
    nxt := setCell acc.2 x y
      { s.cur x y with
        temperature := clampTemp (storeTemp (Int.tdiv (selfT * 100 + acc.1) 100)) } }

/-- A neighbor offset receives a transfer in radiateHeat exactly when its
target is in bounds and the scaled float guard does not skip it. -/
def stepApplies (W H : Nat) (cur : Grid) (selfT : Int) (x y : Int) (d : Int × Int) : Prop :=
  inBounds W H (x + d.1) (y + d.2) = true ∧
    ¬(|selfT - (cur (x + d.1) (y + d.2)).temperature| * 10 < 1)

instance (W H : Nat) (cur : Grid) (selfT : Int) (x y : Int) (d : Int × Int) :
    Decidable (stepApplies W H cur selfT x y d) := by
  unfold stepApplies; infer_instance

/-- The sum of the outgoing transfers of radiateHeat over a list of
offsets, at scale 100: each applied neighbor contributes
selfTemp - neighborTemp, i.e. one hundred times its transfer. -/
def outgoingSum (W H : Nat) (cur : Grid) (selfT : Int) (x y : Int)
    (L : List (Int × Int)) : Int :=
  (L.map (fun d =>
    if stepApplies W H cur selfT x y d then selfT - (cur (x + d.1) (y + d.2)).temperature
    else 0)).sum

/-- The characterization of one radiateHeat step.  Every in-bounds neighbor
with a different temperature has, in the next buffer, its record unchanged
except that 0.01 times (selfTemp - neighborTemp) was added to its
temperature (at scale 100, with the float store truncating toward zero) and
the result clamped; a neighbor at equal temperature is skipped by the float
guard.  The cell itself gets its full current-buffer record written with the
negative outgoing sum added to its temperature, and every temperature
written this way lies in the physical range. -/
def diffusionPost (W H : Nat) (s : Sim) (x y : Int) : Prop :=
  (∀ d ∈ neighborOffsets, inBounds W H (x + d.1) (y + d.2) = true →
    (radiateHeat W H s x y).nxt (x + d.1) (y + d.2) =
      (if (s.cur x y).temperature = (s.cur (x + d.1) (y + d.2)).temperature then
        s.nxt (x + d.1) (y + d.2)
      else
        { s.nxt (x + d.1) (y + d.2) with
          temperature := clampTemp (storeTemp (Int.tdiv
            ((s.nxt (x + d.1) (y + d.2)).temperature * 100 +
              ((s.cur x y).temperature - (s.cur (x + d.1) (y + d.2)).temperature)) 100)) }))
  ∧ (radiateHeat W H s x y).nxt x y =
      { s.cur x y with
        temperature := clampTemp (storeTemp (Int.tdiv
          ((s.cur x y).temperature * 100 -
            outgoingSum W H s.cur (s.cur x y).temperature x y neighborOffsets) 100)) }
  ∧ TEMP_MIN ≤ ((radiateHeat W H s x y).nxt x y).temperature
  ∧ ((radiateHeat W H s x y).nxt x y).temperature ≤ TEMP_MAX
  ∧ (∀ d ∈ neighborOffsets, inBounds W H (x + d.1) (y + d.2) = true →
      (s.cur x y).temperature ≠ (s.cur (x + d.1) (y + d.2)).temperature →
      TEMP_MIN ≤ ((radiateHeat W H s x y).nxt (x + d.1) (y + d.2)).temperature ∧
        ((radiateHeat W H s x y).nxt (x + d.1) (y + d.2)).temperature ≤ TEMP_MAX)

/-! ## Material behaviors.  Each behavior reads its cell from the current
buffer via read; fc is the global frameCounter used by the throttling
checks.  A throttled branch increments lastUpdate of the current-buffer cell
(the C++ code mutates through the reference returned by read) and copies the
cell to the next buffer. -/

/-- The throttle write-back shared by sand and water: lastUpdate++ through
the current-buffer reference, then a copy into the next buffer. -/
def bumpStore (s : Sim) (x y : Int) : Sim :=
  let cell2 := { s.cur x y with lastUpdate := ((s.cur x y).lastUpdate + 1) % 256 }
  { cur := setCell s.cur x y cell2, nxt := setCell s.nxt x y cell2 }

/-- updateSand (line 791): two-stage settling throttle, glass transition at
1700 written into the next buffer record, then fall. -/
def updateSand (W H fc : Nat) (s : Sim) (x y : Int) (r : Rng) : Sim × Rng :=
  let cell := s.cur x y
  if cell.lastUpdate ≥ 300 ∧ fc % 90 ≠ 0 then (bumpStore s x y, r)
  else if cell.lastUpdate < 300 ∧ cell.lastUpdate ≥ 60 ∧ fc % 30 ≠ 0 then (bumpStore s x y, r)
  else
    let s1 :=
      if cell.temperature ≥ 1700 then
        { s with nxt := setCell s.nxt x y { s.nxt x y with type := GLASS % 16 } }
      else s
    fall W H s1 x y r

/-- updateWater (line 817): settling throttle, steam transition at 100
written into the next buffer record, then flow. -/
def updateWater (W H fc : Nat) (s : Sim) (x y : Int) (r : Rng) : Sim × Rng :=
  let cell := s.cur x y
  if cell.lastUpdate ≥ 60 ∧ fc % 10 ≠ 0 then (bumpStore s x y, r)
  else
    let s1 :=
      if cell.temperature ≥ 100 then
        { s with nxt := setCell s.nxt x y { s.nxt x y with type := STEAM % 16 } }
      else s
    flow W H s1 x y r

/-- The fire death guard of updateFire (lines 843-844): the 4-bit lifetime
of the cell against maxLife (90 for a parent cell, 40 otherwise) plus the
rand()-based jitter in 0..4. -/
def fireLifetimeDead (c : Cell) (jitter : Nat) : Prop :=
  otherLifetime c ≥ (if otherParent c then 90 else 40) + jitter

instance (c : Cell) (jitter : Nat) : Decidable (fireLifetimeDead c jitter) := by
  unfold fireLifetimeDead; infer_instance

/-- The fire-neighbor count of updateFire (lines 863-872). -/
def countFireNeighbors (W H : Nat) (s : Sim) (x y : Int) : Nat :=
  (neighborOffsets.filter (fun d =>
    inBounds W H (x + d.1) (y + d.2) && ((s.cur (x + d.1) (y + d.2)).type == FIRE))).length

/-- updateFire (line 837).  Death guard first (rand jitter).  Then a fresh
rand r decides the age gate; returning from the gate leaves the buffers as
radiateHeat wrote them.  The spread-chance comparison
(rand() % 100) > (1 - lifetime / 50.0f) * 100 is modelled exactly at scale
50.  The body of the spread loop computes the fire-neighbor count and then
executes an unconditional return (the unbraced if on line 874 guards only
the clearCells call), so the spread code below it - the upward write of a
child fire cell, lines 877-897 - and the final write(x, y, cell) are
unreachable; the loop runs exactly its first iteration. -/
def updateFire (W H : Nat) (s : Sim) (x y : Int) (r : Rng) : Sim × Rng :=
  let cell := s.cur x y
  let j := drawVal r
  let r1 := drawRest r
  if fireLifetimeDead cell (j % 5) then (clearCells s x y cell.temperature, r1)
  else
    let rv := drawVal r1
    let r2 := drawRest r1
    if rv % 100 > 80 ∨ otherLifetime cell > 40 then (s, r2)
    else
      let rs := drawVal r2
      let r3 := drawRest r2
      if ((rs % 100 : Int)) * 50 > (50 - (otherLifetime cell : Int)) * 100 then (s, r3)
      else if countFireNeighbors W H s x y ≥ 6 then (clearCells s x y 0, r3)
      else (s, r3)

/-- updateOil (line 902): reads its own cell and performs no state change. -/
def updateOil (s : Sim) (_x _y : Int) (r : Rng) : Sim × Rng := (s, r)

/-- updateSteam (line 909): water transition at or below 100 written into
the next buffer record, then rise. -/
def updateSteam (W H : Nat) (s : Sim) (x y : Int) (r : Rng) : Sim × Rng :=
  let cell := s.cur x y
  let s1 :=
    if cell.temperature ≤ 100 then
      { s with nxt := setCell s.nxt x y { s.nxt x y with type := WATER % 16 } }
    else s
  (rise W H s1 x y, r)

/-- updateSmoke (line 919): one rand() draw; past the frameCounter window the
next buffer record is retagged Empty, otherwise rise. -/
def updateSmoke (W H fc : Nat) (s : Sim) (x y : Int) (r : Rng) : Sim × Rng :=
  let n := drawVal r
  let r1 := drawRest r
  if fc > 600 + n % 100 then
    ({ s with nxt := setCell s.nxt x y { s.nxt x y with type := EMPTY % 16 } }, r1)
  else (rise W H s x y, r1)

/-- The flight phase of updateElectricity (lines 967-993): the spread-chance
comparison (rand() % 100) >= (int)((1 - lifetime / 8.0f) * 100) is modelled
exactly, the int cast being truncation toward zero; the drift target is the
clamped anti-centroid plus rand jitter; a new electricity cell is written
through createCell with the argument order of the source (temperature
argument 0, density argument the old cell temperature), then its 4-bit other
lifetime is set; finally the incremented cell is written back. -/
def elecSpread (W H : Nat) (s : Sim) (x y : Int) (cell : Cell)
    (totalDx totalDy : Int) (r : Rng) : Sim × Rng :=
  let p := drawVal r
  let r1 := drawRest r
  if ((p % 100 : Int)) ≥ Int.tdiv ((8 - (otherLifetime cell : Int)) * 100) 8 then
    ({ s with nxt := setCell s.nxt x y cell }, r1)
  else
    let d1 := drawVal r1
    let r2 := drawRest r1
    let d2 := drawVal r2
    let r3 := drawRest r2
    let finalDx := max (-1) (min 1 (-totalDx + ((d1 % 3 : Int) - 1)))
    let finalDy := max (-1) (min 1 (-totalDy + ((d2 % 3 : Int) - 1)))
    let s2 :=
      if (finalDx ≠ 0 ∨ finalDy ≠ 0) ∧
          inBounds W H (x + finalDx) (y + finalDy) = true ∧
          (s.cur (x + finalDx) (y + finalDy)).type = EMPTY then
        let ncell := createCell ELECTRICITY 0 cell.temperature false
        let ncell2 := { ncell with dataByte := setOtherLifetimeByte ncell.dataByte (otherLifetime cell + 1) }
        { s with nxt := setCell s.nxt (x + finalDx) (y + finalDy) ncell2 }
      else s
    ({ s2 with nxt := setCell s2.nxt x y cell }, r3)

/-- updateElectricity (line 932).  The lifetime++ goes through the reference
into the current buffer (4-bit wrap).  At lifetime 8 the cell clears; with a
neighbor count outside 1..5 a coin flip may clear it; otherwise elecSpread. -/
def updateElectricity (W H : Nat) (s0 : Sim) (x y : Int) (r : Rng) : Sim × Rng :=
  let cellA := s0.cur x y
  let cell := { cellA with dataByte := setOtherLifetimeByte cellA.dataByte (otherLifetime cellA + 1) }
  let s := { s0 with cur := setCell s0.cur x y cell }
  if otherLifetime cell ≥ 8 then (clearCells s x y cell.temperature, r)
  else
    let tot := neighborOffsets.foldl (fun (acc : Int × Int × Nat) d =>
        if inBounds W H (x + d.1) (y + d.2) &&
            ((s.cur (x + d.1) (y + d.2)).type == ELECTRICITY) then
          (acc.1 + d.1, acc.2.1 + d.2, acc.2.2 + 1)
        else acc) ((0 : Int), (0 : Int), (0 : Nat))
    if tot.2.2 < 1 ∨ tot.2.2 > 5 then
      let c := drawVal r
      let rc := drawRest r
      if c % 2 = 0 then (clearCells s x y cell.temperature, rc)
      else elecSpread W H s x y cell tot.1 tot.2.1 rc
    else elecSpread W H s x y cell tot.1 tot.2.1 r

/-- updateGlass (line 996): fall only. -/
def updateGlass (W H : Nat) (s : Sim) (x y : Int) (r : Rng) : Sim × Rng :=
  fall W H s x y r

/-- updateStone (line 1004): lava transition at 1205 written into the next
buffer record, then fall. -/
def updateStone (W H : Nat) (s : Sim) (x y : Int) (r : Rng) : Sim × Rng :=
  let cell := s.cur x y
  let s1 :=
    if cell.temperature ≥ 1205 then
      { s with nxt := setCell s.nxt x y { s.nxt x y with type := LAVA % 16 } }
    else s
  fall W H s1 x y r

/-- updateWood (line 1014): fire transition at 300 written into the next
buffer record, then fall. -/
def updateWood (W H : Nat) (s : Sim) (x y : Int) (r : Rng) : Sim × Rng :=
  let cell := s.cur x y
  let s1 :=
    if cell.temperature ≥ 300 then
      { s with nxt := setCell s.nxt x y { s.nxt x y with type := FIRE % 16 } }
    else s
  fall W H s1 x y r

/-- updateLava (line 1031): stone transition at or below 1195 written into
the next buffer record, then flow. -/
def updateLava (W H : Nat) (s : Sim) (x y : Int) (r : Rng) : Sim × Rng :=
  let cell := s.cur x y
  let s1 :=
    if cell.temperature ≤ 1195 then
      { s with nxt := setCell s.nxt x y { s.nxt x y with type := STONE % 16 } }
    else s
  flow W H s1 x y r

/-- updateCold (line 1041): clears the cell in both buffers, retaining its
temperature. -/
def updateCold (s : Sim) (x y : Int) (r : Rng) : Sim × Rng :=
  (clearCells s x y (s.cur x y).temperature, r)

/-- updateCell (line 767): dispatch on the 4-bit tag of the current-buffer
cell.  Empty is a no-op; an unknown tag (13..15; the getCellType assert
would already fire on 14 and 15 in a debug build) is logged and leaves the
state unmodified. -/
def updateCell (W H fc : Nat) (s : Sim) (x y : Int) (r : Rng) : Sim × Rng :=
  let t := getCellType (s.cur x y)
  if t = EMPTY then (s, r)
  else if t = SAND then updateSand W H fc s x y r
  else if t = WATER then updateWater W H fc s x y r
  else if t = STONE then updateStone W H s x y r
  else if t = WOOD then updateWood W H s x y r
  else if t = FIRE then updateFire W H s x y r
  else if t = OIL then updateOil s x y r
  else if t = STEAM then updateSteam W H s x y r
  else if t = SMOKE then updateSmoke W H fc s x y r
  else if t = ELECTRICITY then updateElectricity W H s x y r
  else if t = GLASS then updateGlass W H s x y r
  else if t = LAVA then updateLava W H s x y r
  else if t = COLD then updateCold s x y r
  else (s, r)

/-! ## Scheduler -/

/-- The per-cell step of UpdateWithChecker (lines 720-721): thermal
diffusion first, then the material behavior. -/
def stepCell (W H fc : Nat) (s : Sim) (x y : Int) (r : Rng) : Sim × Rng :=
  updateCell W H fc (radiateHeat W H s x y) x y r

/-- The x scan order of UpdateWithChecker for a mode: ascending for modes 0
and 2, descending for modes 1 and 3. -/
def scanXs (W : Nat) (mode : Nat) : List Int :=
  if mode = 1 ∨ mode = 3 then ((List.range W).map (fun i => (i : Int))).reverse
  else (List.range W).map (fun i => (i : Int))

/-- The y scan order of UpdateWithChecker for a mode: ascending for modes 0
and 1, descending for modes 2 and 3. -/
def scanYs (H : Nat) (mode : Nat) : List Int :=
  if mode = 2 ∨ mode = 3 then ((List.range H).map (fun i => (i : Int))).reverse
  else (List.range H).map (fun i => (i : Int))

/-- The full traversal of UpdateWithChecker: y outer, x inner.  Modes 4 and
up are rejected by an assert in the source and never produced by update. -/
def scanCoords (W H : Nat) (mode : Nat) : List (Int × Int) :=
  ((scanYs H mode).map (fun y => (scanXs W mode).map (fun x => (x, y)))).flatten

/-- UpdateWithChecker (line 691): visit the scan order, and for every cell on
the selected checkerboard parity ((x % 2 == 1) == odd) run radiateHeat and
then updateCell. -/
def UpdateWithChecker (W H fc : Nat) (mode : Nat) (odd : Bool) (s : Sim) (r : Rng) : Sim × Rng :=
  (scanCoords W H mode).foldl
    (fun acc p =>
      if (decide (p.1 % 2 = 1)) = odd then stepCell W H fc acc.1 p.1 p.2 acc.2 else acc)
    (s, r)

/-- Exchange the roles of the two buffers (std::swap(currentGrid, nextGrid)). -/
def swapBuffers (s : Sim) : Sim := { cur := s.nxt, nxt := s.cur }

/-- update (line 729): one tick.  The alternatingFrames phase selects two
passes (each a traversal mode paired with a checkerboard parity), then the
buffers are swapped unconditionally.  The phase counter advances 0, 1, 2, 3
and wraps to 0. -/
def update (W H fc : Nat) (s : Sim) (af : Nat) (r : Rng) : Sim × Nat × Rng :=
  if af = 0 then
    let a := UpdateWithChecker W H fc 0 false s r
    let b := UpdateWithChecker W H fc 1 true a.1 a.2
    (swapBuffers b.1, 1, b.2)
  else if af = 1 then
    let a := UpdateWithChecker W H fc 1 true s r
    let b := UpdateWithChecker W H fc 2 false a.1 a.2
    (swapBuffers b.1, 2, b.2)
  else if af = 2 then
    let a := UpdateWithChecker W H fc 2 false s r
    let b := UpdateWithChecker W H fc 3 true a.1 a.2
    (swapBuffers b.1, 3, b.2)
  else if af = 3 then
    let a := UpdateWithChecker W H fc 3 true s r
    let b := UpdateWithChecker W H fc 0 false a.1 a.2
    (swapBuffers b.1, 0, b.2)
  else (swapBuffers s, af, r)

/-- The pass list of one tick as a function of the alternatingFrames phase,
read off the four branches of update. -/
def tickSchedule (af : Nat) : List (Nat × Bool) :=
  if af = 0 then [(0, false), (1, true)]
  else if af = 1 then [(1, true), (2, false)]
  else if af = 2 then [(2, false), (3, true)]
  else if af = 3 then [(3, true), (0, false)]
  else []

/-- The phase successor of update. -/
def afNext (af : Nat) : Nat :=
  if af = 0 then 1 else if af = 1 then 2 else if af = 2 then 3 else if af = 3 then 0 else af

/-- The concatenated pass list of 4 consecutive ticks starting at phase af. -/
def fourTickPasses (af : Nat) : List (Nat × Bool) :=
  tickSchedule af ++ tickSchedule (afNext af) ++ tickSchedule (afNext (afNext af)) ++
    tickSchedule (afNext (afNext (afNext af)))

/-- Iterate whole ticks, threading the phase counter and the random oracle. -/
def runTicks (W H fc : Nat) : Nat → Sim × Nat × Rng → Sim × Nat × Rng
  | 0, st => st
  | n + 1, st => runTicks W H fc n (update W H fc st.1 st.2.1 st.2.2)

/-! ## Construction and painting -/

/-- The Simulation constructor (line 231): for every in-bounds position, in
the y-outer ascending order, store a fresh Empty cell through write - which
writes into the next buffer only.  The parameter carries the indeterminate
default-initialized contents of the two member arrays. -/
def constructSim (W H : Nat) (init : Sim) : Sim :=
  (scanCoords W H 0).foldl (fun s p => write s p.1 p.2 (createCell EMPTY 0 0 false)) init

/-- getCirclePoints (line 521): for each dy from -radius to radius, dxLimit
is the integer square root of radius^2 - dy^2 (exact for these magnitudes),
and the row from -dxLimit to dxLimit is emitted. -/
def getCirclePoints (cx cy : Int) (radius : Nat) : List (Int × Int) :=
  ((List.range (2 * radius + 1)).map (fun i =>
    (let dy : Int := (i : Int) - (radius : Int)
     let dxLimit : Int := (Nat.sqrt (radius * radius - ((i : Int) - (radius : Int)).natAbs ^ 2) : Int)
     (List.range (2 * dxLimit.toNat + 1)).map (fun k => (cx + (k : Int) - dxLimit, cy + dy))))).flatten

/-- The painting of one target point by handleInput (lines 568-576): an
out-of-bounds point is skipped; an in-bounds point is overwritten in the next
buffer with createCell(currentBrush, base.density, base.temperature,
base.canFall) - the argument order of the source call, whose second argument
feeds the temperature parameter of createCell - and the fresh next-buffer
cell is then copied into the current buffer. -/
def paintPoint (W H : Nat) (s : Sim) (brush : Nat) (px py : Int) : Sim :=
  if inBounds W H px py then
    let base := cellProperties brush
    let s1 := write s px py (createCell brush (base.density : Int) base.temperature base.canFall)
    { s1 with cur := setCell s1.cur px py (s1.nxt px py) }
  else s

/-- The brush application of handleInput: every circle point is painted. -/
def paintCircle (W H : Nat) (s : Sim) (brush : Nat) (cx cy : Int) (radius : Nat) : Sim :=
  (getCirclePoints cx cy radius).foldl (fun s p => paintPoint W H s brush p.1 p.2) s

/-! ## Concrete states used in the analyses below -/

def emptyCell : Cell := createCell EMPTY 0 0 false

/-- A steam cell that has cooled to 50 degrees. -/
def steam50 : Cell := createCell STEAM 50 0 false

/-- A 1 by 1 world holding the cooled steam cell. -/
def c1sim : Sim :=
  { cur := setCell (fun _ _ => emptyCell) 0 0 steam50, nxt := fun _ _ => emptyCell }

/-- One committed tick of the steam world. -/
def c1run : Sim := (update 1 1 0 c1sim 0 []).1

/-- A water cell at 150 degrees (liquid density 4, the value painting
produces for water). -/
def water150 : Cell := createCell WATER 150 4 true

/-- A 1 by 2 world: hot water above an empty cell, mirrored in both buffers. -/
def c2sim : Sim :=
  { cur := setCell (fun _ _ => emptyCell) 0 0 water150
    nxt := setCell (fun _ _ => emptyCell) 0 0 water150 }

/-- One committed tick of the hot-water world. -/
def c2run : Sim := (update 1 2 1 c2sim 0 []).1

def water99 : Cell := createCell WATER 99 4 true

def hotWater : Cell := createCell WATER 3000 4 true

/-- A 2 by 1 world: water at 99 degrees beside water at 3000 degrees. -/
def c3sim : Sim :=
  { cur := setCell (setCell (fun _ _ => emptyCell) 0 0 water99) 1 0 hotWater
    nxt := setCell (setCell (fun _ _ => emptyCell) 0 0 water99) 1 0 hotWater }

/-- The state right after thermal diffusion ran for the cool water cell. -/
def c3rad : Sim := radiateHeat 2 1 c3sim 0 0

/-- The state after the water behavior then ran for the same cell. -/
def c3post : Sim := (updateCell 2 1 1 c3rad 0 0 []).1

def sandCell : Cell := createCell SAND 20 2 true

/-- Indeterminate pre-construction buffer contents: every byte pattern is
possible for the default-initialized member arrays; this instance happens to
hold sand cells. -/
def c4init : Sim := { cur := fun _ _ => sandCell, nxt := fun _ _ => sandCell }

def fireCell : Cell := createCell FIRE 1000 0 true

/-- A 1 by 1 world holding a lone fire cell in both buffers. -/
def fireSim : Sim := { cur := fun _ _ => fireCell, nxt := fun _ _ => fireCell }

/-- A smoke cell whose gas lifetime byte is 3. -/
def gasA : Cell := { createCell SMOKE 100 0 false with dataByte := 3 }

/-- A smoke cell whose gas lifetime byte is 8. -/
def gasB : Cell := { createCell SMOKE 100 0 false with dataByte := 8 }

def waterD4 : Cell := createCell WATER 20 4 true

/-- A 1 by 2 world: water above the smoke cell with lifetime byte 3. -/
def c9simA : Sim :=
  { cur := setCell (setCell (fun _ _ => emptyCell) 0 0 waterD4) 0 1 gasA
    nxt := setCell (setCell (fun _ _ => emptyCell) 0 0 waterD4) 0 1 gasA }

/-- The same world except the smoke cell has lifetime byte 8. -/
def c9simB : Sim :=
  { cur := setCell (setCell (fun _ _ => emptyCell) 0 0 waterD4) 0 1 gasB
    nxt := setCell (setCell (fun _ _ => emptyCell) 0 0 waterD4) 0 1 gasB }

def c9runA : Sim := (flow 1 2 c9simA 0 0 []).1

def c9runB : Sim := (flow 1 2 c9simB 0 0 []).1

def oilCell : Cell := createCell OIL 20 4 true

/-- A 1 by 1 world holding an oil cell, with a stale next buffer. -/
def oilSim : Sim := { cur := fun _ _ => oilCell, nxt := fun _ _ => emptyCell }

/-- An all-empty world. -/
def blankSim : Sim := { cur := fun _ _ => emptyCell, nxt := fun _ _ => emptyCell }

/-- Painting sand onto the single cell of a 1 by 1 world. -/
def paintRun : Sim := paintPoint 1 1 blankSim SAND 0 0

/-- A cell carrying a category tag that belongs to no material. -/
def catJunk : Cell := { emptyCell with category := 5 }

/-- A 3 by 3 world for the diffusion characterization: hot stone in the
center, water in one corner, empty elsewhere. -/
def c8sim : Sim :=
  { cur := setCell (setCell (fun _ _ => emptyCell) 1 1 (createCell STONE 500 3 false)) 0 0
      (createCell WATER 20 4 true)
    nxt := setCell (setCell (fun _ _ => emptyCell) 1 1 (createCell STONE 500 3 false)) 0 0
      (createCell WATER 20 4 true) }

/-! # Theorems -/

theorem setCell_same (g : Grid) (x y : Int) (c : Cell) : setCell g x y c x y = c := by
  simp [setCell]

theorem setCell_ne (g : Grid) (x y : Int) (c : Cell) (p q : Int)
    (h : ¬(p = x ∧ q = y)) : setCell g x y c p q = g p q := by
  simp only [setCell, if_neg h]

theorem foldl_write_cur (L : List (Int × Int)) (s : Sim) :
    (L.foldl (fun s p => write s p.1 p.2 (createCell EMPTY 0 0 false)) s).cur = s.cur := by
  induction L generalizing s with
  | nil => rfl
  | cons e t ih =>
    rw [List.foldl_cons, ih]
    rfl

theorem clampTemp_bounds (t : Int) : TEMP_MIN ≤ clampTemp t ∧ clampTemp t ≤ TEMP_MAX := by
  unfold clampTemp TEMP_MIN TEMP_MAX
  exact ⟨le_max_left _ _, max_le (by norm_num) (min_le_right _ _)⟩

/-- C1: the claimed invariant fails.  A Steam cell at the top row of a world,
at temperature 50, commits one tick: its material tag becomes Water (the
temperature check of updateSteam rewrote the next-buffer tag, and rise
returned without writing because y - 1 is out of bounds), but its stored
category stays Gas, while the category derived from the Water tag is Liquid.
So after a tick commit there is a cell whose stored category differs from
the category derived from its material tag. -/
theorem c1_category_desync :
    (c1run.cur 0 0).type = WATER ∧
    (c1run.cur 0 0).category = GAS ∧
    getCategoryFromType WATER = LIQUID ∧
    (c1run.cur 0 0).category ≠ getCategoryFromType ((c1run.cur 0 0).type) := by decide

/-- C2: a Water cell at temperature 150 with lastUpdate 0, above an Empty
cell, runs its behavior in a committed tick, and afterwards neither its
original position nor the position it moved to holds Steam: updateWater did
retag the next-buffer cell Steam, but flow then overwrote that record (via
swapCells on a successful move, and via the plain write-back otherwise), so
the conversion is lost and the cell stays Water in every reachable
position. -/
theorem c2_water_never_steam :
    (c2sim.cur 0 0).type = WATER ∧
    (c2sim.cur 0 0).temperature = 150 ∧
    (c2sim.cur 0 0).lastUpdate = 0 ∧
    (c2run.cur 0 1).type = WATER ∧
    (c2run.cur 0 0).type = EMPTY ∧
    (c2run.cur 0 1).type ≠ STEAM ∧
    (c2run.cur 0 0).type ≠ STEAM ∧
    (c2run.nxt 0 0).type ≠ STEAM ∧
    (c2run.nxt 0 1).type ≠ STEAM := by decide

/-- C3 counterexample: water at 99 degrees beside water at 3000 degrees.
After radiateHeat runs for the cool cell, the next buffer holds its
diffusion-adjusted temperature 128, above the boiling threshold - but the
current buffer, the one the behavior reads through read, still holds 99; the
water behavior therefore takes the non-boiling branch and the committed
next-buffer record stays Water at 99.  The temperature a behavior reads does
not include the same-tick diffusion contribution. -/
theorem c3_behavior_reads_prediffusion_cx :
    (c3sim.cur 0 0).temperature = 99 ∧
    (c3rad.nxt 0 0).temperature = 128 ∧
    (c3rad.cur 0 0).temperature = 99 ∧
    100 ≤ (c3rad.nxt 0 0).temperature ∧
    (c3rad.cur 0 0).temperature < 100 ∧
    (c3post.nxt 0 0).type = WATER ∧
    (c3post.nxt 0 0).temperature = 99 ∧
    (c3post.nxt 0 0).type ≠ STEAM := by decide

/-- C3 amended: within a pass the scheduler does run thermal diffusion
before the material behavior for each selected cell, but radiateHeat leaves
the current buffer - the buffer every behavior reads through read -
completely unchanged, so the temperature the behavior reads is the
pre-diffusion one; the diffusion contribution of this tick only becomes
visible after the commit swap. -/
theorem c3_diffusion_before_behavior (W H fc : Nat) (s : Sim) (x y : Int) (r : Rng) :
    stepCell W H fc s x y r = updateCell W H fc (radiateHeat W H s x y) x y r ∧
    (radiateHeat W H s x y).cur = s.cur := ⟨rfl, rfl⟩

/-- C4: the constructor routes every initial cell through write, which
stores into the next buffer only, so for any pre-construction buffer
contents the current buffer - the one rendering and the first tick read - is
left exactly as it was (its default-initialized, indeterminate cells), while
the next buffer does receive fresh Empty cells. -/
theorem c4_constructor_writes_next_only :
    (∀ (W H : Nat) (init : Sim), (constructSim W H init).cur = init.cur) ∧
    ((constructSim 1 1 c4init).cur 0 0).type = SAND ∧
    SAND ≠ EMPTY ∧
    (constructSim 1 1 c4init).nxt 0 0 = createCell EMPTY 0 0 false := by
  refine ⟨fun W H init => foldl_write_cur _ _, by decide, by decide, by decide⟩

/-- C6 counterexample: over the 4 consecutive ticks starting at phase 0 the
eight passes use the combination (mode 1, odd parity) twice and the
combination (mode 0, odd parity) never, so it is false that every
(traversal order, parity) combination is used exactly once. -/
theorem c6_schedule_cx :
    (fourTickPasses 0).count (1, true) = 2 ∧
    (fourTickPasses 0).count (0, true) = 0 := by decide

/-- C7: painting applies createCell(currentBrush, base.density,
base.temperature, base.canFall), but the createCell parameter order is
(type, temperature, density, canFall): a painted sand cell gets temperature
2 - the default density of sand - instead of the default temperature 20, and
the density argument 20 violates the createCell assertion that density fits
in 0..15.  Both buffers do receive the same fresh cell, and an out-of-bounds
point is silently skipped. -/
theorem c7_paint_swapped_args :
    (paintRun.cur 0 0).type = SAND ∧
    (paintRun.cur 0 0).temperature = 2 ∧
    (cellProperties SAND).temperature = 20 ∧
    (paintRun.cur 0 0).temperature ≠ (cellProperties SAND).temperature ∧
    paintRun.nxt 0 0 = paintRun.cur 0 0 ∧
    ¬ createCellAsserts SAND ((cellProperties SAND).density : Int) (cellProperties SAND).temperature ∧
    paintPoint 1 1 blankSim SAND 5 5 = blankSim := by
  refine ⟨by decide, by decide, by decide, by decide, by decide, by decide, rfl⟩

/-- C9 counterexample: flow consults the raw liquid-density bits of its
movement targets whatever their category.  Two worlds identical except for
the gas-lifetime byte of the Smoke cell below the water (3 in one, 8 in the
other) make flow decide differently: with byte 3 the water swaps down into
the smoke, with byte 8 it stays put - although the checked accessor
getDensity yields the defined default 0 for both smoke cells.  So flow reads
aliased union bits of a non-Liquid cell rather than a defined default. -/
theorem c9_flow_reads_aliased_bits_cx :
    gasA.category = GAS ∧
    gasB.category = GAS ∧
    getDensity gasA = 0 ∧
    getDensity gasB = 0 ∧
    liquidDensity gasA = 3 ∧
    liquidDensity gasB = 8 ∧
    (c9runA.cur 0 1).type = WATER ∧
    (c9runA.cur 0 0).type = SMOKE ∧
    (c9runB.cur 0 0).type = WATER ∧
    (c9runB.cur 0 1).type = SMOKE ∧
    c9runA.cur 0 1 ≠ c9runB.cur 0 1 := by decide

/-- C9 amended: the four checked accessors of the cell codec do check the
stored category first and yield a defined default for a cell of any other
category; it is the movement primitives that bypass them (fall reads the
solid canFall bit of its own cell unchecked, and flow compares raw
liquid-density bits of arbitrary targets, per the counterexample). -/
theorem c9_checked_accessors_default (c : Cell) :
    (c.category ≠ SOLID → getCanFall c = false) ∧
    (c.category ≠ LIQUID → getDensity c = 0) ∧
    (c.category ≠ GAS → c.category ≠ OTHER → getLifetime c = 0) ∧
    (c.category ≠ OTHER → isParentCell c = false) := by
  unfold getCanFall getDensity getLifetime isParentCell SOLID LIQUID GAS OTHER
  refine ⟨fun h => if_neg h, fun h => if_neg h, fun h2 h3 => ?_, fun h => if_neg h⟩
  rw [if_neg h2, if_neg h3]

theorem c9_checked_accessors_default_witness :
    (catJunk.category ≠ SOLID ∧ catJunk.category ≠ LIQUID ∧ catJunk.category ≠ GAS ∧
      catJunk.category ≠ OTHER) ∧
    (getCanFall catJunk = false ∧ getDensity catJunk = 0 ∧ getLifetime catJunk = 0 ∧
      isParentCell catJunk = false) :=
  ⟨by decide,
    ⟨(c9_checked_accessors_default catJunk).1 (by decide),
     (c9_checked_accessors_default catJunk).2.1 (by decide),
     (c9_checked_accessors_default catJunk).2.2.1 (by decide) (by decide),
     (c9_checked_accessors_default catJunk).2.2.2 (by decide)⟩⟩

/-- The four branches of update are exactly the pass list of tickSchedule
followed by the unconditional buffer swap, with the phase advancing to
afNext. -/
theorem update_runs_schedule (W H fc af : Nat) (s : Sim) (r : Rng) :
    update W H fc s af r =
      (swapBuffers ((tickSchedule af).foldl
          (fun a pq => UpdateWithChecker W H fc pq.1 pq.2 a.1 a.2) (s, r)).1,
        afNext af,
        ((tickSchedule af).foldl
          (fun a pq => UpdateWithChecker W H fc pq.1 pq.2 a.1 a.2) (s, r)).2) := by
  rcases af with _ | _ | _ | _ | m <;>
    simp [update, tickSchedule, afNext]

/-- C6 amended: every tick is exactly two passes, each one traversal mode
paired with one parity, but over any 4 consecutive ticks the eight passes
use only the four combinations (0, even), (1, odd), (2, even), (3, odd) -
each exactly twice - and the other four (order, parity) combinations never
occur. -/
theorem c6_schedule_amended (af : Nat) (h : af < 4) :
    (tickSchedule af).length = 2 ∧
    (∀ m : Nat, m < 4 →
      (fourTickPasses af).count (m, false) =
        (if (m, false) ∈ [((0 : Nat), false), (1, true), (2, false), (3, true)] then 2 else 0) ∧
      (fourTickPasses af).count (m, true) =
        (if (m, true) ∈ [((0 : Nat), false), (1, true), (2, false), (3, true)] then 2 else 0)) := by
  interval_cases af <;> exact ⟨by decide, by decide⟩

theorem c6_schedule_amended_witness :
    0 < 4 ∧
    ((tickSchedule 0).length = 2 ∧
    (∀ m : Nat, m < 4 →
      (fourTickPasses 0).count (m, false) =
        (if (m, false) ∈ [((0 : Nat), false), (1, true), (2, false), (3, true)] then 2 else 0) ∧
      (fourTickPasses 0).count (m, true) =
        (if (m, true) ∈ [((0 : Nat), false), (1, true), (2, false), (3, true)] then 2 else 0))) :=
  ⟨by decide, c6_schedule_amended 0 (by decide)⟩

theorem radiateHeat_cur (W H : Nat) (s : Sim) (x y : Int) :
    (radiateHeat W H s x y).cur = s.cur := rfl

theorem fireLifetimeDead_never (c : Cell) (j : Nat) : ¬ fireLifetimeDead c j := by
  unfold fireLifetimeDead otherLifetime
  have h : c.dataByte / 16 % 16 < 16 := Nat.mod_lt _ (by norm_num)
  split_ifs <;> omega

/-- On a 1 by 1 grid every neighbor of the single cell is out of bounds, so
radiateHeat transfers nothing and just copies the current record (with a
vanishing net delta added to its temperature) into the next buffer. -/
theorem radiateHeat_grid1_nxt (s : Sim) :
    (radiateHeat 1 1 s 0 0).nxt 0 0 =
      { s.cur 0 0 with
        temperature := clampTemp (storeTemp (Int.tdiv ((s.cur 0 0).temperature * 100 + 0) 100)) } := rfl

theorem fireCell_fixed :
    { fireCell with
      temperature := clampTemp (storeTemp (Int.tdiv (fireCell.temperature * 100 + 0) 100)) } =
      fireCell := by decide

theorem updateCell_fire (W H fc : Nat) (s : Sim) (x y : Int) (r : Rng)
    (h : (s.cur x y).type = FIRE) :
    updateCell W H fc s x y r = updateFire W H s x y r := by
  unfold updateCell getCellType
  rw [h]
  rfl

theorem updateCell_oil (W H fc : Nat) (s : Sim) (x y : Int) (r : Rng)
    (h : (s.cur x y).type = OIL) :
    updateCell W H fc s x y r = (s, r) := by
  unfold updateCell getCellType
  rw [h]
  rfl

/-- A lone fire cell on a 1 by 1 grid never takes a clearing branch of
updateFire: the lifetime death guard is unsatisfiable, the spread-chance
comparison fails for a lifetime-0 cell, and there are no fire neighbors; the
simulation state comes back unchanged on every random oracle. -/
theorem updateFire_grid1 (s : Sim) (r : Rng) (h1 : s.cur 0 0 = fireCell) :
    (updateFire 1 1 s 0 0 r).1 = s := by
  simp only [updateFire]
  rw [h1]
  rw [if_neg (fireLifetimeDead_never fireCell (drawVal r % 5))]
  by_cases hb : drawVal (drawRest r) % 100 > 80 ∨ otherLifetime fireCell > 40
  · rw [if_pos hb]
  · rw [if_neg hb]
    have hrs : ¬ ((drawVal (drawRest (drawRest r)) % 100 : Int)) * 50 >
        (50 - (otherLifetime fireCell : Int)) * 100 := by
      have h100 : drawVal (drawRest (drawRest r)) % 100 < 100 := Nat.mod_lt _ (by norm_num)
      have hz : (otherLifetime fireCell : Int) = 0 := by decide
      rw [hz]
      have : ((drawVal (drawRest (drawRest r)) % 100 : Nat) : Int) ≤ 99 := by
        exact_mod_cast Nat.le_of_lt_succ h100
      omega
    rw [if_neg hrs]
    have hcnt : countFireNeighbors 1 1 s 0 0 = 0 := rfl
    rw [if_neg (by rw [hcnt]; omega : ¬ countFireNeighbors 1 1 s 0 0 ≥ 6)]

theorem fireStep_keeps (fc : Nat) (s : Sim) (r : Rng)
    (h1 : s.cur 0 0 = fireCell) (_h2 : s.nxt 0 0 = fireCell) :
    (stepCell 1 1 fc s 0 0 r).1.cur 0 0 = fireCell ∧
    (stepCell 1 1 fc s 0 0 r).1.nxt 0 0 = fireCell := by
  have hradc : (radiateHeat 1 1 s 0 0).cur 0 0 = fireCell := h1
  have hradn : (radiateHeat 1 1 s 0 0).nxt 0 0 = fireCell := by
    rw [radiateHeat_grid1_nxt, h1]
    exact fireCell_fixed
  have hdisp : stepCell 1 1 fc s 0 0 r = updateFire 1 1 (radiateHeat 1 1 s 0 0) 0 0 r := by
    unfold stepCell
    exact updateCell_fire 1 1 fc _ 0 0 r (by rw [radiateHeat_cur, h1]; rfl)
  rw [hdisp, updateFire_grid1 _ r hradc]
  exact ⟨hradc, hradn⟩

theorem firePass_keeps (fc m : Nat) (odd : Bool) (s : Sim) (r : Rng)
    (hm : scanCoords 1 1 m = [(0, 0)])
    (h1 : s.cur 0 0 = fireCell) (h2 : s.nxt 0 0 = fireCell) :
    (UpdateWithChecker 1 1 fc m odd s r).1.cur 0 0 = fireCell ∧
    (UpdateWithChecker 1 1 fc m odd s r).1.nxt 0 0 = fireCell := by
  unfold UpdateWithChecker
  rw [hm]
  simp only [List.foldl_cons, List.foldl_nil]
  by_cases ho : (decide (((0, 0) : Int × Int).1 % 2 = 1)) = odd
  · rw [if_pos ho]
    exact fireStep_keeps fc s r h1 h2
  · rw [if_neg ho]
    exact ⟨h1, h2⟩

theorem fireTick_keeps (fc af : Nat) (s : Sim) (r : Rng)
    (h1 : s.cur 0 0 = fireCell) (h2 : s.nxt 0 0 = fireCell) :
    (update 1 1 fc s af r).1.cur 0 0 = fireCell ∧
    (update 1 1 fc s af r).1.nxt 0 0 = fireCell := by
  rcases af with _ | _ | _ | _ | m
  · have ha := firePass_keeps fc 0 false s r (by decide) h1 h2
    have hb := firePass_keeps fc 1 true (UpdateWithChecker 1 1 fc 0 false s r).1
      (UpdateWithChecker 1 1 fc 0 false s r).2 (by decide) ha.1 ha.2
    exact ⟨hb.2, hb.1⟩
  · have ha := firePass_keeps fc 1 true s r (by decide) h1 h2
    have hb := firePass_keeps fc 2 false (UpdateWithChecker 1 1 fc 1 true s r).1
      (UpdateWithChecker 1 1 fc 1 true s r).2 (by decide) ha.1 ha.2
    exact ⟨hb.2, hb.1⟩
  · have ha := firePass_keeps fc 2 false s r (by decide) h1 h2
    have hb := firePass_keeps fc 3 true (UpdateWithChecker 1 1 fc 2 false s r).1
      (UpdateWithChecker 1 1 fc 2 false s r).2 (by decide) ha.1 ha.2
    exact ⟨hb.2, hb.1⟩
  · have ha := firePass_keeps fc 3 true s r (by decide) h1 h2
    have hb := firePass_keeps fc 0 false (UpdateWithChecker 1 1 fc 3 true s r).1
      (UpdateWithChecker 1 1 fc 3 true s r).2 (by decide) ha.1 ha.2
    exact ⟨hb.2, hb.1⟩
  · exact ⟨h2, h1⟩

theorem fireRun_keeps (fc n : Nat) : ∀ (s : Sim) (af : Nat) (r : Rng),
    s.cur 0 0 = fireCell → s.nxt 0 0 = fireCell →
    (runTicks 1 1 fc n (s, af, r)).1.cur 0 0 = fireCell ∧
    (runTicks 1 1 fc n (s, af, r)).1.nxt 0 0 = fireCell := by
  induction n with
  | zero => exact fun s af r h1 h2 => ⟨h1, h2⟩
  | succ k ih =>
    intro s af r h1 h2
    have ht := fireTick_keeps fc af s r h1 h2
    have := ih (update 1 1 fc s af r).1 (update 1 1 fc s af r).2.1
      (update 1 1 fc s af r).2.2 ht.1 ht.2
    simpa [runTicks] using this

/-- C5: fire never dies of age.  The lifetime field of a fire cell is the
4-bit other.lifetime, at most 15, while the death guard needs it to reach at
least 40 plus the jitter - so the guard of updateFire is unsatisfiable for
every representable cell and every jitter.  Consequently a lone fire cell
persists forever: on a 1 by 1 world, after any number of ticks, at any
scheduler phase, on any random oracle, the committed cell is still Fire. -/
theorem c5_fire_lifetime_unreachable :
    (∀ (c : Cell) (j : Nat), ¬ fireLifetimeDead c j) ∧
    (∀ (fc n af : Nat) (r : Rng),
      ((runTicks 1 1 fc n (fireSim, af, r)).1.cur 0 0).type = FIRE) := by
  refine ⟨fireLifetimeDead_never, fun fc n af r => ?_⟩
  have h := fireRun_keeps fc n fireSim af r rfl rfl
  rw [h.1]
  rfl

/-- The scaled float guard of radiateHeat skips a neighbor exactly when the
two integer temperatures are equal. -/
theorem absGuard_iff (a b : Int) : (|a - b| * 10 < 1) ↔ a = b := by
  constructor
  · intro h
    by_contra hne
    have h1 : 1 ≤ |a - b| := Int.one_le_abs (sub_ne_zero.mpr hne)
    have h2 : (1 : ℤ) * 10 ≤ |a - b| * 10 := by
      exact mul_le_mul_of_nonneg_right h1 (by norm_num)
    linarith
  · rintro rfl
    simp

theorem radiateStep_fst (W H : Nat) (cur : Grid) (selfT : Int) (x y : Int)
    (acc : Int × Grid) (e : Int × Int) :
    (radiateStep W H cur selfT x y acc e).1 =
      acc.1 - (if stepApplies W H cur selfT x y e
        then selfT - (cur (x + e.1) (y + e.2)).temperature else 0) := by
  simp only [radiateStep, stepApplies]
  by_cases h1 : inBounds W H (x + e.1) (y + e.2) = true
  · rw [if_pos h1]
    by_cases h2 : |selfT - (cur (x + e.1) (y + e.2)).temperature| * 10 < 1
    · rw [if_pos h2, if_neg (fun hc => hc.2 h2), sub_zero]
    · rw [if_neg h2, if_pos ⟨h1, h2⟩]
  · rw [if_neg h1, if_neg (fun hc => h1 hc.1), sub_zero]

theorem radiateStep_snd_ne (W H : Nat) (cur : Grid) (selfT : Int) (x y : Int)
    (acc : Int × Grid) (e : Int × Int) (p q : Int)
    (h : ¬(p = x + e.1 ∧ q = y + e.2)) :
    (radiateStep W H cur selfT x y acc e).2 p q = acc.2 p q := by
  simp only [radiateStep]
  split_ifs <;> first | rfl | exact setCell_ne _ _ _ _ _ _ h

theorem radiateStep_snd_same (W H : Nat) (cur : Grid) (selfT : Int) (x y : Int)
    (acc : Int × Grid) (e : Int × Int) :
    (radiateStep W H cur selfT x y acc e).2 (x + e.1) (y + e.2) =
      if stepApplies W H cur selfT x y e then
        { acc.2 (x + e.1) (y + e.2) with
          temperature := clampTemp (storeTemp (Int.tdiv
            ((acc.2 (x + e.1) (y + e.2)).temperature * 100 +
              (selfT - (cur (x + e.1) (y + e.2)).temperature)) 100)) }
      else acc.2 (x + e.1) (y + e.2) := by
  simp only [radiateStep, stepApplies]
  by_cases h1 : inBounds W H (x + e.1) (y + e.2) = true
  · rw [if_pos h1]
    by_cases h2 : |selfT - (cur (x + e.1) (y + e.2)).temperature| * 10 < 1
    · rw [if_pos h2, if_neg (fun hc => hc.2 h2)]
    · rw [if_neg h2]
      show setCell _ _ _ _ _ _ = _
      rw [setCell_same, if_pos ⟨h1, h2⟩]
  · rw [if_neg h1, if_neg (fun hc => h1 hc.1)]

theorem outgoingSum_cons (W H : Nat) (cur : Grid) (selfT : Int) (x y : Int)
    (e : Int × Int) (t : List (Int × Int)) :
    outgoingSum W H cur selfT x y (e :: t) =
      (if stepApplies W H cur selfT x y e
        then selfT - (cur (x + e.1) (y + e.2)).temperature else 0) +
      outgoingSum W H cur selfT x y t := by
  unfold outgoingSum
  rw [List.map_cons, List.sum_cons]

theorem radiateFold_untouched (W H : Nat) (cur : Grid) (selfT : Int) (x y : Int)
    (L : List (Int × Int)) : ∀ (acc : Int × Grid) (p q : Int),
    (∀ d ∈ L, ¬(p = x + d.1 ∧ q = y + d.2)) →
    (L.foldl (radiateStep W H cur selfT x y) acc).2 p q = acc.2 p q := by
  induction L with
  | nil => intro acc p q _; rfl
  | cons e t ih =>
    intro acc p q h
    rw [List.foldl_cons, ih _ p q (fun d hd => h d (List.mem_cons_of_mem _ hd)),
      radiateStep_snd_ne _ _ _ _ _ _ _ _ _ _ (h e (List.mem_cons_self _ _))]

theorem radiateFold_netDelta (W H : Nat) (cur : Grid) (selfT : Int) (x y : Int)
    (L : List (Int × Int)) : ∀ acc : Int × Grid,
    (L.foldl (radiateStep W H cur selfT x y) acc).1 =
      acc.1 - outgoingSum W H cur selfT x y L := by
  induction L with
  | nil => intro acc; simp [outgoingSum]
  | cons e t ih =>
    intro acc
    rw [List.foldl_cons, ih, radiateStep_fst, outgoingSum_cons]
    ring

theorem radiateFold_value (W H : Nat) (cur : Grid) (selfT : Int) (x y : Int)
    (L : List (Int × Int)) : ∀ (acc : Int × Grid) (d : Int × Int), d ∈ L →
    (L.map (fun e => (x + e.1, y + e.2))).Nodup →
    (L.foldl (radiateStep W H cur selfT x y) acc).2 (x + d.1) (y + d.2) =
      (if stepApplies W H cur selfT x y d then
        { acc.2 (x + d.1) (y + d.2) with
          temperature := clampTemp (storeTemp (Int.tdiv
            ((acc.2 (x + d.1) (y + d.2)).temperature * 100 +
              (selfT - (cur (x + d.1) (y + d.2)).temperature)) 100)) }
      else acc.2 (x + d.1) (y + d.2)) := by
  induction L with
  | nil => intro acc d hd _; cases hd
  | cons e t ih =>
    intro acc d hd hnd
    rw [List.map_cons] at hnd
    have hnd' := List.nodup_cons.mp hnd
    rcases List.mem_cons.mp hd with rfl | hdt
    · have hnot : ∀ f ∈ t, ¬(x + d.1 = x + f.1 ∧ y + d.2 = y + f.2) := by
        intro f hf hc
        apply hnd'.1
        have hmem : (x + f.1, y + f.2) ∈ t.map (fun e => (x + e.1, y + e.2)) :=
          List.mem_map_of_mem _ hf
        rwa [← hc.1, ← hc.2] at hmem
      rw [List.foldl_cons, radiateFold_untouched W H cur selfT x y t _ _ _ hnot,
        radiateStep_snd_same]
    · have hpos : (x + e.1, y + e.2) ≠ (x + d.1, y + d.2) := by
        intro hc
        exact hnd'.1 (hc ▸ List.mem_map_of_mem _ hdt)
      have hne : ¬(x + d.1 = x + e.1 ∧ y + d.2 = y + e.2) := by
        intro hc
        exact hpos (by rw [hc.1, hc.2])
      rw [List.foldl_cons, ih _ d hdt hnd'.2, radiateStep_snd_ne _ _ _ _ _ _ _ _ _ _ hne]

theorem radiateHeat_nxt_self (W H : Nat) (s : Sim) (x y : Int) :
    (radiateHeat W H s x y).nxt x y =
      { s.cur x y with
        temperature := clampTemp (storeTemp (Int.tdiv
          ((s.cur x y).temperature * 100 -
            outgoingSum W H s.cur (s.cur x y).temperature x y neighborOffsets) 100)) } := by
  simp only [radiateHeat]
  rw [setCell_same, radiateFold_netDelta]
  have harith : (s.cur x y).temperature * 100 +
      ((0 : Int) - outgoingSum W H s.cur (s.cur x y).temperature x y neighborOffsets) =
      (s.cur x y).temperature * 100 -
        outgoingSum W H s.cur (s.cur x y).temperature x y neighborOffsets := by ring
  rw [harith]

theorem neighborOffsets_map_nodup (x y : Int) :
    (neighborOffsets.map (fun e => (x + e.1, y + e.2))).Nodup := by
  have hinj : Function.Injective (fun e : Int × Int => (x + e.1, y + e.2)) := by
    intro a b hab
    have h1 : x + a.1 = x + b.1 := congrArg Prod.fst hab
    have h2 : y + a.2 = y + b.2 := congrArg Prod.snd hab
    cases a
    cases b
    simp only [Prod.mk.injEq]
    simp only at h1 h2
    omega
  exact (by decide : neighborOffsets.Nodup).map hinj

theorem radiateHeat_nxt_neighbor (W H : Nat) (s : Sim) (x y : Int) (d : Int × Int)
    (hd : d ∈ neighborOffsets) :
    (radiateHeat W H s x y).nxt (x + d.1) (y + d.2) =
      (if stepApplies W H s.cur (s.cur x y).temperature x y d then
        { s.nxt (x + d.1) (y + d.2) with
          temperature := clampTemp (storeTemp (Int.tdiv
            ((s.nxt (x + d.1) (y + d.2)).temperature * 100 +
              ((s.cur x y).temperature - (s.cur (x + d.1) (y + d.2)).temperature)) 100)) }
      else s.nxt (x + d.1) (y + d.2)) := by
  have hne : ¬(x + d.1 = x ∧ y + d.2 = y) := by
    have h0 : d ≠ (0, 0) := by rintro rfl; revert hd; decide
    intro hc
    apply h0
    obtain ⟨hc1, hc2⟩ := hc
    cases d
    simp only [Prod.mk.injEq]
    simp only at hc1 hc2
    omega
  simp only [radiateHeat]
  rw [setCell_ne _ _ _ _ _ _ hne]
  exact radiateFold_value W H s.cur (s.cur x y).temperature x y neighborOffsets (0, s.nxt) d hd
    (neighborOffsets_map_nodup x y)

/-- C8: the characterization of one thermal-diffusion step, for every state
and every cell: each in-bounds neighbor at a different temperature receives
the transfer 0.01 times (selfTemp minus neighborTemp) - carried at scale 100
with the float store truncating toward zero - the cell itself gets its
current record written with the negative sum of all outgoing transfers added
to its temperature, and every temperature so written is clamped into the
range -273 to 3000. -/
theorem c8_diffusion (W H : Nat) (s : Sim) (x y : Int) : diffusionPost W H s x y := by
  refine ⟨?_, radiateHeat_nxt_self W H s x y, ?_, ?_, ?_⟩
  · intro d hd hb
    rw [radiateHeat_nxt_neighbor W H s x y d hd]
    by_cases he : (s.cur x y).temperature = (s.cur (x + d.1) (y + d.2)).temperature
    · rw [if_pos he, if_neg (fun hs => hs.2 (by rw [he, sub_self, abs_zero]; norm_num))]
    · rw [if_neg he, if_pos ⟨hb, fun hg => he ((absGuard_iff _ _).mp hg)⟩]
  · rw [radiateHeat_nxt_self]
    exact (clampTemp_bounds _).1
  · rw [radiateHeat_nxt_self]
    exact (clampTemp_bounds _).2
  · intro d hd hb hne2
    rw [radiateHeat_nxt_neighbor W H s x y d hd,
      if_pos ⟨hb, fun hg => hne2 ((absGuard_iff _ _).mp hg)⟩]
    exact clampTemp_bounds _

theorem c8_diffusion_witness : diffusionPost 3 3 c8sim 1 1 := c8_diffusion 3 3 c8sim 1 1

/-- C10: for a visited Oil cell the per-cell step is exactly radiateHeat
(the Oil behavior performs no writes at all), radiateHeat leaves the current
buffer unchanged, and it writes the complete current-buffer record of the
cell - every field identical, only the temperature replaced by its
diffusion-adjusted value - into the same position of the next buffer before
the behavior runs; so the cell survives the commit swap. -/
theorem c10_oil_preserved (W H fc : Nat) (s : Sim) (x y : Int) (r : Rng)
    (ht : (s.cur x y).type = OIL) :
    stepCell W H fc s x y r = (radiateHeat W H s x y, r) ∧
    (radiateHeat W H s x y).cur = s.cur ∧
    (radiateHeat W H s x y).nxt x y =
      { s.cur x y with temperature := ((radiateHeat W H s x y).nxt x y).temperature } ∧
    ((radiateHeat W H s x y).nxt x y).temperature =
      clampTemp (storeTemp (Int.tdiv
        ((s.cur x y).temperature * 100 -
          outgoingSum W H s.cur (s.cur x y).temperature x y neighborOffsets) 100)) := by
  refine ⟨?_, rfl, ?_, ?_⟩
  · unfold stepCell
    exact updateCell_oil W H fc _ x y r ht
  · rw [radiateHeat_nxt_self]
  · rw [radiateHeat_nxt_self]

theorem c10_oil_preserved_witness :
    (oilSim.cur 0 0).type = OIL ∧
    (stepCell 1 1 0 oilSim 0 0 [] = (radiateHeat 1 1 oilSim 0 0, []) ∧
     (radiateHeat 1 1 oilSim 0 0).cur = oilSim.cur ∧
     (radiateHeat 1 1 oilSim 0 0).nxt 0 0 =
       { oilSim.cur 0 0 with temperature := ((radiateHeat 1 1 oilSim 0 0).nxt 0 0).temperature } ∧
     ((radiateHeat 1 1 oilSim 0 0).nxt 0 0).temperature =
       clampTemp (storeTemp (Int.tdiv
         ((oilSim.cur 0 0).temperature * 100 -
           outgoingSum 1 1 oilSim.cur (oilSim.cur 0 0).temperature 0 0 neighborOffsets) 100))) :=
  ⟨by decide, c10_oil_preserved 1 1 0 oilSim 0 0 [] (by decide)⟩

end Sandbox
